import Mathlib

/-!
Verification of the photo-color pipeline: a shallow embedding of the
deterministic data-transformation logic (analysis normalization, prompt
composition, post-processing, batch orchestration) together with theorems
checking the specification's claims against it.
-/

namespace PhotoColor

/-! ### String primitives

Structurally recursive equivalents of the JavaScript string operations used
by the source (`toLowerCase`, `split`, `join`, `startsWith`, `endsWith`,
slicing, per-character replacement), so that concrete runs reduce inside
the kernel. -/

/-- JavaScript `s.toLowerCase()` for the ASCII strings this code handles. -/
def jsToLower (s : String) : String :=
  ⟨s.data.map Char.toLower⟩

/-- Split a character list on every occurrence of `sep`, keeping empty
pieces, as JavaScript `split` does. -/
def splitOnCharAux (sep : Char) : List Char → List (List Char)
  | [] => [[]]
  | c :: rest =>
    match splitOnCharAux sep rest with
    | [] => if c = sep then [[], []] else [[c]]
    | h :: t => if c = sep then [] :: h :: t else (c :: h) :: t

/-- JavaScript `s.split(sep)` for a single-character separator. -/
def jsSplitOn (sep : Char) (s : String) : List String :=
  (splitOnCharAux sep s.data).map String.mk

/-- JavaScript `parts.join(sep)`. -/
def joinWith (sep : String) : List String → String
  | [] => ""
  | [x] => x
  | x :: y :: xs => x ++ sep ++ joinWith sep (y :: xs)

/-- JavaScript `s.startsWith(p)`. -/
def jsStartsWith (s p : String) : Bool :=
  p.data.isPrefixOf s.data

/-- JavaScript `s.endsWith(p)`. -/
def jsEndsWith (s p : String) : Bool :=
  p.data.isSuffixOf s.data

/-- Drop the first `n` characters of `s`. -/
def jsDrop (s : String) (n : ℕ) : String :=
  ⟨s.data.drop n⟩

/-- Drop the last `n` characters of `s`. -/
def jsDropRight (s : String) (n : ℕ) : String :=
  ⟨s.data.take (s.data.length - n)⟩

/-! ### Data model (src/lib/pipeline/types.ts) -/

/-- Photo classification produced by the vision model (`PhotoType`). -/
inductive PhotoType
  | portrait | group | pet | landscape | landmark | other
deriving DecidableEq, BEq, Repr

/-- Raw string form of a photo type, as used where the TypeScript code
treats `photoType` as a plain string. -/
def PhotoType.toString : PhotoType → String
  | .portrait => "portrait"
  | .group => "group"
  | .pet => "pet"
  | .landscape => "landscape"
  | .landmark => "landmark"
  | .other => "other"

/-- Complexity tier (`ComplexityLevel`). -/
inductive ComplexityLevel
  | toddler | child | tween | adult
deriving DecidableEq, BEq, Repr

/-- Prompt variant (`PromptVariant`). -/
inductive PromptVariant
  | directTransform | preservationHeavy | simplificationHeavy
deriving DecidableEq, BEq, Repr

/-- Normalized bounding box (`BoundingBoxSchema`): x, y, width, height in [0,1].
The analysis prompt instructs the vision model that x and y are the top-left
corner of the box. Coordinates are modelled as rationals. -/
structure BoundingBox where
  x : ℚ
  y : ℚ
  width : ℚ
  height : ℚ
deriving DecidableEq, Repr

/-- One detected subject (`SubjectSchema`). -/
structure Subject where
  description : String
  boundingBox : BoundingBox
  distinctiveFeatures : List String
deriving DecidableEq, Repr

/-- Background information (`BackgroundInfoSchema`); complexity is an
integer rated 1-10 by the vision model. -/
structure BackgroundInfo where
  description : String
  complexity : ℤ
  keyElements : List String
deriving DecidableEq, Repr

/-- Simplification target (`SimplificationTargetSchema`). -/
structure SimplificationTarget where
  element : String
  reason : String
  applicableComplexity : List ComplexityLevel
deriving DecidableEq, Repr

/-- Rich vision analysis (`ImageAnalysisSchema`). -/
structure ImageAnalysis where
  photoType : PhotoType
  subjects : List Subject
  background : BackgroundInfo
  preservationPriorities : List String
  simplificationTargets : List SimplificationTarget
deriving DecidableEq, Repr

/-- Category of a detected element (`DetectedElementSchema.category`). -/
inductive ElementCategory
  | subject | object | background | accessory
deriving DecidableEq, BEq, Repr

/-- Normalized detected element (`DetectedElementSchema`). -/
structure DetectedElement where
  label : String
  importance : ℕ
  category : ElementCategory
  description : String
deriving DecidableEq, Repr

/-- Face region (`FaceRegionSchema`); `position` is a free-form string in
the schema. -/
structure FaceRegion where
  description : String
  position : String
  distinguishingFeatures : List String
deriving DecidableEq, Repr

/-- Background strategy (`AnalysisResultSchema.backgroundStrategy`). -/
inductive BackgroundStrategy
  | remove | simplify | preserveStructure | preserveDetail
deriving DecidableEq, BEq, Repr

/-- Normalized analysis result (`AnalysisResultSchema`). -/
structure AnalysisResult where
  elements : List DetectedElement
  faceRegions : List FaceRegion
  sceneDescription : String
  spatialLayout : String
  backgroundStrategy : BackgroundStrategy
deriving DecidableEq, Repr

/-! ### AnalysisNormalizer (src/lib/pipeline/analyzer.ts) -/

/-- JavaScript `a.includes(b)` on strings: substring containment, checked
against every starting offset. -/
def jsIncludes (s sub : String) : Bool :=
  (List.range (s.toList.length + 1)).any fun i =>
    sub.toList.isPrefixOf (s.toList.drop i)

/-- Mirrors `bboxToPosition`: buckets the box's `x`/`y` fields (its top-left
corner) into one of left/right, top/bottom, combined as
`"vertical-horizontal"`, defaulting to `"center"`. Empty strings play the
role of JavaScript falsy values, exactly as in the source. -/
def bboxToPosition (bbox : BoundingBox) : String :=
  let horizontal : String :=
    if bbox.x < 0.33 then "left" else if bbox.x > 0.66 then "right" else ""
  let vertical : String :=
    if bbox.y < 0.33 then "top" else if bbox.y > 0.66 then "bottom" else ""
  if horizontal ≠ "" ∧ vertical ≠ "" then vertical ++ "-" ++ horizontal
  else if horizontal ≠ "" then horizontal
  else if vertical ≠ "" then vertical
  else "center"

/-- Mirrors `deriveBackgroundStrategy` (same argument order as the source:
complexity first, then photo type). -/
def deriveBackgroundStrategy (complexity : ℤ) (photoType : PhotoType) :
    BackgroundStrategy :=
  if photoType = .landmark then .preserveDetail
  else if photoType = .landscape then .preserveStructure
  else if complexity ≤ 2 then .remove
  else if complexity ≤ 5 then .simplify
  else if complexity ≤ 8 then .preserveStructure
  else .preserveDetail

/-- The filter applied to subjects before they become face regions: at least
one distinctive feature, and either a portrait/group photo or a
person-indicating token in the lowercased description. -/
def faceSubjectFilter (photoType : PhotoType) (s : Subject) : Bool :=
  decide (0 < s.distinctiveFeatures.length) &&
    (photoType == .portrait || photoType == .group ||
      jsIncludes (jsToLower s.description) "person" ||
      jsIncludes (jsToLower s.description) "man" ||
      jsIncludes (jsToLower s.description) "woman" ||
      jsIncludes (jsToLower s.description) "boy" ||
      jsIncludes (jsToLower s.description) "girl" ||
      jsIncludes (jsToLower s.description) "child")

/-- The map applied to a filtered subject to build its `FaceRegion`. -/
def subjectToFaceRegion (subject : Subject) : FaceRegion :=
  { description := subject.description
    position := bboxToPosition subject.boundingBox
    distinguishingFeatures := subject.distinctiveFeatures }

/-- The `subjectElements` block of `imageAnalysisToAnalysisResult`: one
element per subject in original order, importance `index + 1`, label the
first 3 space-separated tokens of the description. -/
def subjectElementsOf (analysis : ImageAnalysis) : List DetectedElement :=
  analysis.subjects.enum.map fun p =>
    { label := joinWith " " ((jsSplitOn ' ' p.2.description).take 3)
      importance := p.1 + 1
      category := .subject
      description := p.2.description }

/-- The `backgroundElements` block of `imageAnalysisToAnalysisResult`:
one element per background key element, importance continuing after the
subjects. -/
def backgroundElementsOf (analysis : ImageAnalysis) : List DetectedElement :=
  analysis.background.keyElements.enum.map fun p =>
    { label := p.2
      importance := analysis.subjects.length + p.1 + 1
      category := .background
      description := p.2 }

/-- Mirrors `imageAnalysisToAnalysisResult`: maps the rich `ImageAnalysis`
to the normalized `AnalysisResult` consumed by prompt composition. -/
def imageAnalysisToAnalysisResult (analysis : ImageAnalysis) : AnalysisResult :=
  let subjectElements := subjectElementsOf analysis
  let backgroundElements := backgroundElementsOf analysis
  let elements :=
    match subjectElements ++ backgroundElements with
    | [] =>
        [{ label := "scene", importance := 1, category := .subject,
           description := analysis.background.description }]
    | es => es
  let faceRegions :=
    (analysis.subjects.filter (faceSubjectFilter analysis.photoType)).map
      subjectToFaceRegion
  let backgroundStrategy :=
    deriveBackgroundStrategy analysis.background.complexity analysis.photoType
  let sceneDescription :=
    if 0 < analysis.subjects.length then
      analysis.photoType.toString ++ ": " ++
        joinWith ", " (analysis.subjects.map (·.description)) ++
        " with " ++ analysis.background.description
    else analysis.background.description
  let spatialLayout :=
    if analysis.photoType = .portrait then "portrait close-up"
    else if analysis.photoType = .group then "group scene"
    else if analysis.photoType = .landscape then "landscape"
    else analysis.photoType.toString
  { elements := elements
    faceRegions := faceRegions
    sceneDescription := sceneDescription
    spatialLayout := spatialLayout
    backgroundStrategy := backgroundStrategy }

/-! ### PromptComposer (src/lib/prompts/generation.ts) -/

/-- Static per-level configuration (`ComplexityConfig`). -/
structure ComplexityConfig where
  lineWeight : String
  detailLevel : String
  regionSize : String
  ageDescription : String
  additionalInstructions : String
deriving DecidableEq, Repr

/-- Mirrors the `COMPLEXITY_CONFIG` record. -/
def COMPLEXITY_CONFIG : ComplexityLevel → ComplexityConfig
  | .toddler =>
    { lineWeight := "very thick, bold outlines (6-8px equivalent)"
      detailLevel := "extremely simplified, only the most basic shapes"
      regionSize := "very large coloring regions, no small details"
      ageDescription := "toddlers ages 2-4"
      additionalInstructions :=
        "Reduce everything to basic geometric shapes. No small details, no textures, no patterns. Maximum 8-10 distinct regions to color." }
  | .child =>
    { lineWeight := "thick, clear outlines (4-6px equivalent)"
      detailLevel := "simplified but recognizable, moderate detail"
      regionSize := "medium to large coloring regions"
      ageDescription := "children ages 5-8"
      additionalInstructions :=
        "Keep shapes recognizable but simplified. Include some detail in clothing and hair. Around 15-25 distinct coloring regions." }
  | .tween =>
    { lineWeight := "medium outlines (2-4px equivalent)"
      detailLevel := "detailed with clear shapes, moderate complexity"
      regionSize := "varied region sizes including some smaller details"
      ageDescription := "tweens ages 9-12"
      additionalInstructions :=
        "Include detailed features like clothing folds, hair texture, and background elements. Around 30-50 distinct coloring regions." }
  | .adult =>
    { lineWeight := "fine, precise outlines (1-3px equivalent)"
      detailLevel := "highly detailed, intricate patterns where appropriate"
      regionSize := "many small and detailed regions"
      ageDescription := "adults and advanced colorists"
      additionalInstructions :=
        "Include fine details: fabric textures, individual leaves, architectural details, hair strands. Add decorative patterns in large empty areas. 50+ distinct coloring regions." }

/-- Mirrors `buildSceneBlock`. -/
def buildSceneBlock (analysis : AnalysisResult) : String :=
  let subjects :=
    (analysis.elements.filter (fun el => el.category == .subject)).map
      (·.description)
  let objects :=
    (analysis.elements.filter (fun el => el.category == .object)).map
      (·.description)
  let parts : List String :=
    ["Scene: " ++ analysis.sceneDescription ++ "."] ++
      (if 0 < subjects.length then
        ["Main subjects: " ++ joinWith ", " subjects ++ "."]
      else []) ++
      (if 0 < objects.length then
        ["Also includes: " ++ joinWith ", " objects ++ "."]
      else [])
  joinWith " " parts

/-- Mirrors `buildFaceBlock`. -/
def buildFaceBlock (analysis : AnalysisResult) : String :=
  if analysis.faceRegions.length = 0 then ""
  else
    joinWith "; "
      (analysis.faceRegions.map fun face =>
        face.description ++ " (" ++ face.position ++ "), features: " ++
          joinWith ", " face.distinguishingFeatures)

/-- Mirrors `buildBackgroundInstruction`. -/
def buildBackgroundInstruction (strategy : BackgroundStrategy) : String :=
  match strategy with
  | .remove => "Pure white background, no background elements."
  | .simplify =>
    "Minimally suggested background with only essential structural lines."
  | .preserveStructure =>
    "Background shows recognizable shapes as simple outlines."
  | .preserveDetail =>
    "Background included with full structural detail rendered as line art."

/-- The term list from which `NEGATIVE_PROMPT` is joined in the source. -/
def NEGATIVE_PROMPT_TERMS : List String :=
  ["color", "shading", "gradient", "gray", "grey", "shadow", "photograph",
   "photorealistic", "3d render", "watermark", "text", "signature", "blurry",
   "low quality", "filled areas", "solid black regions", "halftone",
   "crosshatch", "noise", "grain"]

/-- Mirrors `NEGATIVE_PROMPT`: the fixed comma-joined constant. -/
def NEGATIVE_PROMPT : String :=
  joinWith ", " NEGATIVE_PROMPT_TERMS

/-- Mirrors the final `[task, preservation, style, constraints, complexity]
.filter(Boolean).join(" ")` step shared by the three variants. -/
def joinClauses (parts : List String) : String :=
  joinWith " " (parts.filter (fun p => p ≠ ""))

/-- Mirrors `directTransform`. -/
def directTransform (complexityLevel : ComplexityLevel)
    (analysisResult : Option AnalysisResult) : String :=
  let config := COMPLEXITY_CONFIG complexityLevel
  let task :=
    "Convert this photograph into a coloring book page. Black and white line art drawing suitable for " ++
      config.ageDescription ++ "."
  let preservation :=
    match analysisResult with
    | some analysisResult =>
      let scene := buildSceneBlock analysisResult
      let faces := buildFaceBlock analysisResult
      if faces ≠ "" then
        scene ++
          " The people must be recognizable as the same individuals. Preserve exact facial features, proportions, hairstyle, glasses: " ++
          faces ++ "."
      else scene
    | none =>
      "If people are present, the people must be recognizable as the same individuals. Preserve exact facial features, proportions, hairstyle, glasses."
  let background :=
    match analysisResult with
    | some analysisResult =>
      buildBackgroundInstruction analysisResult.backgroundStrategy
    | none => "Simplify the background to minimal structural outlines."
  let style :=
    "Style: " ++ config.lineWeight ++
      ". Bold black outlines on pure white background. " ++ background
  let constraints :=
    "No color, no shading, no gradients, no gray tones. Every region either pure black outline or pure white fill, nothing in between."
  let complexity :=
    "Detail level: " ++ config.detailLevel ++ ". Region sizes: " ++
      config.regionSize ++ ". " ++ config.additionalInstructions
  joinClauses [task, preservation, style, constraints, complexity]

/-- Mirrors `preservationHeavy`. -/
def preservationHeavy (complexityLevel : ComplexityLevel)
    (analysisResult : Option AnalysisResult) : String :=
  let config := COMPLEXITY_CONFIG complexityLevel
  let task :=
    "Convert this photograph into a coloring book page while maintaining the identity and likeness of every person. Black and white line art for " ++
      config.ageDescription ++ "."
  let preservation :=
    match analysisResult with
    | some analysisResult =>
      let scene := buildSceneBlock analysisResult
      let faces := buildFaceBlock analysisResult
      if faces ≠ "" then
        scene ++ joinWith ""
          [" CRITICAL: The people must be recognizable as the same individuals from the original photo.",
           " Preserve exact facial features, proportions, hairstyle, glasses for each person: " ++ faces ++ ".",
           " Facial structure is the top priority — jawline, nose shape, eye spacing, brow shape, and lip proportions must match the original.",
           " Distinguishing accessories (glasses, earrings, hats, jewelry) must appear in their exact form."]
      else scene
    | none =>
      joinWith " "
        ["CRITICAL: The people must be recognizable as the same individuals from the original photo.",
         "Preserve exact facial features, proportions, hairstyle, glasses.",
         "Facial structure is the top priority — jawline, nose shape, eye spacing, brow shape, and lip proportions must match the original.",
         "Distinguishing accessories (glasses, earrings, hats, jewelry) must appear in their exact form."]
  let background :=
    match analysisResult with
    | some analysisResult =>
      buildBackgroundInstruction analysisResult.backgroundStrategy
    | none => "Simplify the background to keep focus on the people."
  let style :=
    "Style: " ++ config.lineWeight ++
      ". Bold black outlines on pure white background. Use line weight variation to emphasize facial features — thinner lines for facial detail, thicker for body contours. " ++
      background
  let constraints :=
    "No color, no shading, no gradients, no gray tones. Every region either pure black outline or pure white fill, nothing in between. Do not simplify faces — only simplify non-face regions to match the target complexity."
  let complexity :=
    "Detail level: " ++ config.detailLevel ++ ". Region sizes: " ++
      config.regionSize ++ ". " ++ config.additionalInstructions ++
      " Exception: faces always retain full detail regardless of complexity level."
  joinClauses [task, preservation, style, constraints, complexity]

/-- Mirrors `simplificationHeavy`. -/
def simplificationHeavy (complexityLevel : ComplexityLevel)
    (analysisResult : Option AnalysisResult) : String :=
  let config := COMPLEXITY_CONFIG complexityLevel
  let task :=
    "Create a clean, professionally illustrated coloring book page from this photograph. Prioritize clear, unbroken outlines and well-defined coloring regions. Black and white line art for " ++
      config.ageDescription ++ "."
  let preservation :=
    match analysisResult with
    | some analysisResult =>
      let scene := buildSceneBlock analysisResult
      let faces := buildFaceBlock analysisResult
      if faces ≠ "" then
        scene ++
          " The people must be recognizable as the same individuals. Preserve exact facial features, proportions, hairstyle, glasses, but render them with clean simplified strokes: " ++
          faces ++ "."
      else scene
    | none =>
      "If people are present, the people must be recognizable as the same individuals. Preserve exact facial features, proportions, hairstyle, glasses, but render them with clean simplified strokes."
  let background :=
    match analysisResult with
    | some analysisResult =>
      buildBackgroundInstruction analysisResult.backgroundStrategy
    | none => "Remove or heavily simplify the background."
  let style :=
    joinWith " "
      ["Style: " ++ config.lineWeight ++ ". Bold black outlines on pure white background.",
       "Every outline must be a single clean stroke — no sketchy or doubled lines.",
       "Every enclosed region must be clearly bounded by unbroken lines with no gaps.",
       "Merge small adjacent details into larger, easier-to-color regions.",
       background]
  let constraints :=
    "No color, no shading, no gradients, no gray tones. Every region either pure black outline or pure white fill, nothing in between. No cross-hatching, no stippling, no texture marks, no decorative fills inside regions."
  let complexity :=
    "Detail level: " ++ config.detailLevel ++ ". Region sizes: " ++
      config.regionSize ++ ". " ++ config.additionalInstructions ++
      " When in doubt, simplify further — fewer well-defined regions are better than many ambiguous ones."
  joinClauses [task, preservation, style, constraints, complexity]

/-- Mirrors the `VARIANT_BUILDERS` dispatch table. -/
def variantBuilder : PromptVariant → ComplexityLevel → Option AnalysisResult →
    String
  | .directTransform => directTransform
  | .preservationHeavy => preservationHeavy
  | .simplificationHeavy => simplificationHeavy

/-- Positive and negative prompt pair returned by `buildGenerationPrompt`. -/
structure GenerationPrompt where
  prompt : String
  negativePrompt : String
deriving DecidableEq, Repr

/-- Mirrors `buildGenerationPrompt`. -/
def buildGenerationPrompt (variant : PromptVariant)
    (complexityLevel : ComplexityLevel)
    (analysisResult : Option AnalysisResult) : GenerationPrompt :=
  { prompt := variantBuilder variant complexityLevel analysisResult
    negativePrompt := NEGATIVE_PROMPT }

/-- Mirrors `buildEditPrompt`: folds the negative constraints into a single
prompt for edit endpoints. -/
def buildEditPrompt (variant : PromptVariant)
    (complexityLevel : ComplexityLevel)
    (analysisResult : Option AnalysisResult) : String :=
  variantBuilder variant complexityLevel analysisResult ++
    " MUST NOT include: " ++ NEGATIVE_PROMPT ++ "."

/-- Inference parameters (`getInferenceConfig` return shape). -/
structure InferenceConfig where
  numInferenceSteps : ℕ
  guidanceScale : ℚ
deriving DecidableEq, Repr

/-- Mirrors `getInferenceConfig`. -/
def getInferenceConfig : ComplexityLevel → InferenceConfig
  | .toddler => { numInferenceSteps := 20, guidanceScale := 8.0 }
  | .child => { numInferenceSteps := 25, guidanceScale := 7.5 }
  | .tween => { numInferenceSteps := 30, guidanceScale := 7.5 }
  | .adult => { numInferenceSteps := 35, guidanceScale := 7.0 }

/-- Position of a complexity level in the declared order
toddler < child < tween < adult. -/
def ComplexityLevel.idx : ComplexityLevel → ℕ
  | .toddler => 0
  | .child => 1
  | .tween => 2
  | .adult => 3

/-! ### Batch file naming (src/lib/batch/types.ts) -/

/-- Mirrors the `modelSlug` computation inside `buildOutputFileName`:
`.replace(/^fal-ai\//, "")`, then `.replace(/\/edit$/, "")`, then
`.replace(/[^a-z0-9-]/g, "-")`. -/
def modelSlugOf (model : String) : String :=
  let s1 := if jsStartsWith model "fal-ai/" then jsDrop model 7 else model
  let s2 := if jsEndsWith s1 "/edit" then jsDropRight s1 5 else s1
  ⟨s2.data.map fun ch =>
    if ('a' ≤ ch ∧ ch ≤ 'z') ∨ ('0' ≤ ch ∧ ch ≤ '9') ∨ ch = '-' then ch
    else '-'⟩

/-- Mirrors `buildOutputFileName`. -/
def buildOutputFileName (complexity variant model : String) : String :=
  complexity ++ "--" ++ variant ++ "--" ++ modelSlugOf model ++ ".png"

/-! ### Batch orchestration (src/app/batch/page.tsx, src/lib/batch/types.ts) -/

/-- Whether a generation model is an edit-type or text-to-image endpoint. -/
inductive ModelType
  | edit | textToImage
deriving DecidableEq, BEq, Repr

/-- One entry of the `GENERATION_MODELS` table. -/
structure GenerationModel where
  id : String
  label : String
  type : ModelType
deriving DecidableEq, Repr

/-- Mirrors the `GENERATION_MODELS` constant. -/
def GENERATION_MODELS : List GenerationModel :=
  [{ id := "fal-ai/nano-banana-pro/edit", label := "Nano Banana Pro",
     type := .edit },
   { id := "fal-ai/gpt-image-1.5/edit", label := "GPT Image 1.5",
     type := .edit },
   { id := "fal-ai/nano-banana/edit", label := "Nano Banana", type := .edit },
   { id := "fal-ai/gemini-3-pro-image-preview/edit",
     label := "Gemini 3 Pro Preview", type := .edit },
   { id := "fal-ai/fast-sdxl", label := "Fast SDXL (text-to-image)",
     type := .textToImage }]

/-- Mirrors `BATCH_COMPLEXITY_LEVELS`. -/
def BATCH_COMPLEXITY_LEVELS : List String := ["child", "adult"]

/-- Mirrors `BATCH_VARIANTS`. -/
def BATCH_VARIANTS : List String :=
  ["direct-transform", "preservation-heavy", "simplification-heavy"]

/-- Mirrors the `TOTAL_ITERATIONS` constant of the batch page. -/
def TOTAL_ITERATIONS : ℕ :=
  BATCH_COMPLEXITY_LEVELS.length * BATCH_VARIANTS.length *
    GENERATION_MODELS.length

/-- Generation record carried by a batch result (`GenerationResult` in the
batch-era types: width/height, negative prompt, seed and description are all
optional). -/
structure GenerationResult where
  imageUrl : String
  width : Option ℕ
  height : Option ℕ
  model : String
  promptUsed : String
  negativePromptUsed : Option String
  seed : Option ℤ
  description : Option String
deriving DecidableEq, Repr

/-- Result of one server action (`ActionResult<T>` in batch/actions.ts). -/
inductive ActionResult (α : Type) where
  | success (data : α)
  | failure (error : String)
deriving DecidableEq, Repr

/-- Payload of a successful `generateIterationAction`
(`GenerateIterationResult`). -/
structure IterationData where
  outputFileName : String
  modelLabel : String
  generation : GenerationResult
  generationMs : ℕ
  postProcessMs : ℕ
deriving DecidableEq, Repr

/-- Payload of a successful `initBatchAction` (`InitBatchResult`); the
analysis data itself is opaque to the client loop, which only forwards it. -/
structure InitBatchData where
  batchId : String
  imageUrl : String
  inputFileName : String
deriving DecidableEq, Repr

/-- One per-iteration record (`BatchResult`); `error` is `none` on the
success path, where the source object simply omits the field. -/
structure BatchResult where
  model : String
  modelLabel : String
  complexity : String
  variant : String
  outputFileName : String
  generation : GenerationResult
  generationMs : ℕ
  postProcessMs : ℕ
  ratings : List (String × ℕ)
  error : Option String
deriving DecidableEq, Repr

/-- Top-level run record (`BatchRun`). -/
structure BatchRun where
  id : String
  timestamp : String
  inputFileName : String
  totalIterations : ℕ
  completedIterations : ℕ
  failedIterations : ℕ
  results : List BatchResult
deriving DecidableEq, Repr

/-- Final phase of `handleRunAll`: the analysis step failing sets
`phase = "error"` and returns before any iteration; otherwise the loop runs
to completion and sets `phase = "done"` with the accumulated results and
error messages. -/
inductive RunOutcome
  | error (message : String)
  | done (results : List BatchResult) (errors : List String)
deriving DecidableEq, Repr

/-- The body of one loop iteration of `handleRunAll`: on success, push the
returned data as a `BatchResult`; on failure, push an error message
`"{complexity} / {variant} / {model.label}: {error}"` and a `BatchResult`
carrying the error and zero/empty generation data. Returns the result
record and the optional error-list entry. -/
def iterationEntry (iterate : GenerationModel → String → String →
      ActionResult IterationData)
    (model : GenerationModel) (complexity variant : String) :
    BatchResult × Option String :=
  match iterate model complexity variant with
  | .success data =>
    ({ model := model.id
       modelLabel := data.modelLabel
       complexity := complexity
       variant := variant
       outputFileName := data.outputFileName
       generation := data.generation
       generationMs := data.generationMs
       postProcessMs := data.postProcessMs
       ratings := []
       error := none }, none)
  | .failure err =>
    ({ model := model.id
       modelLabel := model.label
       complexity := complexity
       variant := variant
       outputFileName := buildOutputFileName complexity variant model.id
       generation :=
         { imageUrl := ""
           width := none
           height := none
           model := model.id
           promptUsed := ""
           negativePromptUsed := none
           seed := none
           description := none }
       generationMs := 0
       postProcessMs := 0
       ratings := []
       error := some err },
     some (complexity ++ " / " ++ variant ++ " / " ++ model.label ++ ": " ++
       err))

/-- The loop order of `handleRunAll`: outer models, middle complexities,
inner variants. -/
def iterationTriples (models : List GenerationModel)
    (complexities variants : List String) :
    List (GenerationModel × String × String) :=
  models.flatMap fun model =>
    complexities.flatMap fun complexity =>
      variants.map fun variant => (model, complexity, variant)

/-- Mirrors `handleRunAll`: if the up-front init/analysis action failed, the
run stops in the error phase with no results; otherwise every (model,
complexity, variant) triple is iterated in loop order, appending one
`BatchResult` (and, on failure, one error message) per triple. -/
def handleRunAll (models : List GenerationModel)
    (complexities variants : List String)
    (initResult : ActionResult InitBatchData)
    (iterate : GenerationModel → String → String →
      ActionResult IterationData) : RunOutcome :=
  match initResult with
  | .failure e => RunOutcome.error e
  | .success _ =>
    let final :=
      (iterationTriples models complexities variants).foldl
        (fun acc t =>
          let entry := iterationEntry iterate t.1 t.2.1 t.2.2
          (acc.1 ++ [entry.1],
           match entry.2 with
           | some e => acc.2 ++ [e]
           | none => acc.2))
        ([], [])
    RunOutcome.done final.1 final.2

/-- JavaScript truthiness of the optional `error` string field: absent and
empty strings are falsy. -/
def jsTruthy : Option String → Bool
  | none => false
  | some s => s ≠ ""

/-- Mirrors `handleSave`: builds the `BatchRun` record, counting completed
iterations with `!r.error` and failed ones with `r.error`, fixing
`totalIterations` to the `TOTAL_ITERATIONS` constant, and merging submitted
ratings by output filename (`ratings[r.outputFileName] ?? r.ratings`). -/
def handleSave (batchId timestamp inputFileName : String)
    (results : List BatchResult)
    (ratings : String → Option (List (String × ℕ))) : BatchRun :=
  { id := batchId
    timestamp := timestamp
    inputFileName := inputFileName
    totalIterations := TOTAL_ITERATIONS
    completedIterations :=
      (results.filter (fun r => !jsTruthy r.error)).length
    failedIterations := (results.filter (fun r => jsTruthy r.error)).length
    results :=
      results.map fun r =>
        { r with ratings := (ratings r.outputFileName).getD r.ratings } }

/-! ### PostProcessor (src/lib/pipeline/post-process.ts)

The source composes the `sharp` image library:
`grayscale() → median(k) → threshold(t) → resize(fit inside, no enlarge)
→ png/jpeg encode`. The per-pixel semantics of those library calls are not
part of this repository, so they are modelled from the spec below; the
pipeline structure itself (stage order, option handling) mirrors
`postProcessColoringPage`. -/

/-- Output encoding selected by `PostProcessOptions.outputFormat`. -/
inductive OutputFormat
  | png | jpeg
deriving DecidableEq, BEq, Repr

/-- Mirrors `PostProcessOptions` with the source's defaults. -/
structure PostProcessOptions where
  threshold : ℕ := 128
  denoise : Bool := true
  denoiseKernel : ℕ := 3
  outputFormat : OutputFormat := .png
  outputWidth : Option ℕ := none
  outputHeight : Option ℕ := none
deriving DecidableEq, Repr

/-- A single-channel raster: rows of 0-255 luminance values. -/
abbrev Raster := List (List ℕ)

/-- Pixel lookup clamped by defaults: out-of-range reads yield 0 (black). -/
def rasterGet (g : Raster) (i j : ℕ) : ℕ :=
  (g.getD i []).getD j 0

/-- Modelled from the spec: `sharp.grayscale()` — "convert to single-channel
grayscale"; an RGB pixel is reduced to a luminance value with the standard
Rec.601 weights, in integer arithmetic. -/
def grayscalePixel (p : ℕ × ℕ × ℕ) : ℕ :=
  (299 * p.1 + 587 * p.2.1 + 114 * p.2.2) / 1000

/-- Median of a list of naturals: middle element of the sorted list. -/
def medianOf (vals : List ℕ) : ℕ :=
  (vals.insertionSort (· ≤ ·)).getD (vals.length / 2) 0

/-- Modelled from the spec: `sharp.median(k)` — "apply a median filter with
the given odd kernel size"; each pixel becomes the median of the k x k
window around it (edge reads clamp to 0). -/
def medianFilter (k : ℕ) (g : Raster) : Raster :=
  (List.range g.length).map fun i =>
    (List.range (g.getD i []).length).map fun j =>
      medianOf <|
        (List.range k).flatMap fun di =>
          (List.range k).map fun dj =>
            rasterGet g (i + di - k / 2) (j + dj - k / 2)

/-- Modelled from the spec: `sharp.threshold(t)` — "every pixel below
`threshold` (0-255 luminance) becomes pure black, else pure white". -/
def thresholdPixel (t v : ℕ) : ℕ :=
  if v < t then 0 else 255

/-- Modelled from the spec: the geometry of `sharp.resize(w, h, fit:
"inside", withoutEnlargement: true)` — scale by the largest factor that fits
inside the requested box, never above 1. Returns the target height and
width. -/
def fitInsideDims (srcH srcW : ℕ) (outW outH : Option ℕ) : ℕ × ℕ :=
  let widthScale : ℚ :=
    match outW with
    | some w => if srcW = 0 then 1 else (w : ℚ) / (srcW : ℚ)
    | none => 1
  let heightScale : ℚ :=
    match outH with
    | some h => if srcH = 0 then 1 else (h : ℚ) / (srcH : ℚ)
    | none => 1
  let scale := min 1 (min widthScale heightScale)
  ((⌊(srcH : ℚ) * scale⌋).toNat, (⌊(srcW : ℚ) * scale⌋).toNat)

/-- Modelled from the spec: resampling for `sharp.resize`; the spec fixes
only the geometry, so resampling is modelled as nearest-neighbour pixel
selection, which draws every output value from the input raster. -/
def resampleRaster (h w : ℕ) (g : Raster) : Raster :=
  (List.range h).map fun i =>
    (List.range w).map fun j =>
      rasterGet g (i * g.length / h) (j * (g.getD 0 []).length / w)

/-- Mirrors the stage order of `postProcessColoringPage` on the decoded
pixel buffer, up to (and excluding) the final PNG/JPEG encode: grayscale,
optional median denoise, threshold, optional aspect-fit resize. -/
def postProcessColoringPage (img : List (List (ℕ × ℕ × ℕ)))
    (options : PostProcessOptions) : Raster :=
  let gray : Raster := img.map (List.map grayscalePixel)
  let denoised := if options.denoise then medianFilter options.denoiseKernel gray else gray
  let binarized := denoised.map (List.map (thresholdPixel options.threshold))
  match options.outputWidth, options.outputHeight with
  | none, none => binarized
  | ow, oh =>
    let dims := fitInsideDims binarized.length
      (binarized.getD 0 []).length ow oh
    resampleRaster dims.1 dims.2 binarized

/-! ### Spec-side definitions and concrete inputs used by the theorems -/

/-- The 7 position strings declared for `FaceRegion.position` by the spec's
data model. -/
def declaredPositions : List String :=
  ["center", "left", "right", "top-left", "top-right", "bottom-left",
   "bottom-right"]

/-- The 9 position strings `bboxToPosition` can actually produce: the 7
declared ones plus the bare vertical buckets. -/
def producedPositions : List String :=
  ["center", "left", "right", "top", "bottom", "top-left", "top-right",
   "bottom-left", "bottom-right"]

/-- Follows the claim's words (C5): the position derived from the bounding
box CENTER — horizontal bucket left if x<0.33, right if x>0.66, else none;
vertical bucket top if y<0.33, bottom if y>0.66, else none; combined as
`"{vertical}-{horizontal}"` when both are set, otherwise whichever is set,
otherwise `"center"`. Stated only for comparison with `bboxToPosition`. -/
def bboxCenterPositionSpec (bbox : BoundingBox) : String :=
  let cx := bbox.x + bbox.width / 2
  let cy := bbox.y + bbox.height / 2
  let horizontal : Option String :=
    if cx < 0.33 then some "left" else if cx > 0.66 then some "right"
    else none
  let vertical : Option String :=
    if cy < 0.33 then some "top" else if cy > 0.66 then some "bottom"
    else none
  match vertical, horizontal with
  | some v, some h => v ++ "-" ++ h
  | none, some h => h
  | some v, none => v
  | none, none => "center"

/-- Follows the amended claim's words (C5): the same bucket combination
applied to the box's top-left corner (x, y), phrased with explicit
optional buckets rather than the source's empty-string encoding. -/
def bboxCornerPositionSpec (bbox : BoundingBox) : String :=
  let horizontal : Option String :=
    if bbox.x < 0.33 then some "left" else if bbox.x > 0.66 then some "right"
    else none
  let vertical : Option String :=
    if bbox.y < 0.33 then some "top" else if bbox.y > 0.66 then some "bottom"
    else none
  match vertical, horizontal with
  | some v, some h => v ++ "-" ++ h
  | none, some h => h
  | some v, none => v
  | none, none => "center"

/-- A degenerate analysis with no subjects and no background key elements. -/
def emptyAnalysis : ImageAnalysis :=
  { photoType := .other
    subjects := []
    background :=
      { description := "a foggy field", complexity := 3, keyElements := [] }
    preservationPriorities := []
    simplificationTargets := [] }

/-- A portrait subject whose box corner sits in the top band (y = 0.1)
while its center (0.7, 0.5) sits in the right band. -/
def subject0 : Subject :=
  { description := "smiling man"
    boundingBox := { x := 1/2, y := 1/10, width := 2/5, height := 4/5 }
    distinctiveFeatures := ["glasses"] }

/-- A concrete portrait analysis built around `subject0`. -/
def portraitAnalysis : ImageAnalysis :=
  { photoType := .portrait
    subjects := [subject0]
    background :=
      { description := "plain wall", complexity := 1, keyElements := [] }
    preservationPriorities := []
    simplificationTargets := [] }

/-- A concrete successful generation payload for batch witnesses. -/
def iterationData0 : IterationData :=
  { outputFileName := "child--direct-transform--fast-sdxl.png"
    modelLabel := "Fast SDXL (text-to-image)"
    generation :=
      { imageUrl := "https://example.invalid/out.png"
        width := some 1024
        height := some 1024
        model := "fal-ai/fast-sdxl"
        promptUsed := "prompt"
        negativePromptUsed := some NEGATIVE_PROMPT
        seed := some 7
        description := none }
    generationMs := 1200
    postProcessMs := 300 }

/-- A concrete iteration action that fails exactly on the `adult`
complexity with message `"boom"` and succeeds otherwise. -/
def iterateOneFailure (_model : GenerationModel) (complexity : String)
    (_variant : String) : ActionResult IterationData :=
  if complexity = "adult" then .failure "boom"
  else .success iterationData0

/-- A concrete successful init payload for batch witnesses. -/
def initData0 : InitBatchData :=
  { batchId := "b1-123", imageUrl := "https://example.invalid/in.jpg",
    inputFileName := "input.jpg" }

/-- A single concrete model used by small batch witnesses. -/
def model0 : GenerationModel :=
  { id := "fal-ai/fast-sdxl", label := "Fast SDXL (text-to-image)",
    type := .textToImage }

/-! ### Theorems -/

/-- C6: `deriveBackgroundStrategy` is a pure function of (photoType,
complexity) evaluated in priority order with the first match winning:
landmark → preserve-detail; landscape → preserve-structure; otherwise by
numeric complexity: ≤2 → remove, ≤5 → simplify, ≤8 → preserve-structure,
else preserve-detail; in particular the landscape rule overrides the
numeric rule, so derive(landscape, 1) = preserve-structure. -/
theorem c6_background_strategy_priority (photoType : PhotoType)
    (complexity : ℤ) :
    (photoType = .landmark →
      deriveBackgroundStrategy complexity photoType = .preserveDetail) ∧
    (photoType = .landscape →
      deriveBackgroundStrategy complexity photoType = .preserveStructure) ∧
    (photoType ≠ .landmark → photoType ≠ .landscape →
      ((complexity ≤ 2 →
          deriveBackgroundStrategy complexity photoType = .remove) ∧
        (2 < complexity → complexity ≤ 5 →
          deriveBackgroundStrategy complexity photoType = .simplify) ∧
        (5 < complexity → complexity ≤ 8 →
          deriveBackgroundStrategy complexity photoType =
            .preserveStructure) ∧
        (8 < complexity →
          deriveBackgroundStrategy complexity photoType =
            .preserveDetail))) ∧
    deriveBackgroundStrategy 1 .landscape = .preserveStructure := by
  refine ⟨?_, ?_, ?_, by decide⟩
  · intro h; subst h; simp [deriveBackgroundStrategy]
  · intro h; subst h; simp [deriveBackgroundStrategy]
  · intro h1 h2
    refine ⟨fun hc => ?_, fun hc1 hc2 => ?_, fun hc1 hc2 => ?_,
      fun hc => ?_⟩ <;>
      simp only [deriveBackgroundStrategy, if_neg h1, if_neg h2] <;>
      split_ifs <;> first | rfl | omega

/-- Witness for C6 at the concrete inputs named by the spec. -/
theorem c6_background_strategy_priority_witness :
    deriveBackgroundStrategy 7 .landmark = .preserveDetail ∧
    deriveBackgroundStrategy 1 .landscape = .preserveStructure ∧
    deriveBackgroundStrategy 2 .other = .remove ∧
    deriveBackgroundStrategy 5 .other = .simplify ∧
    deriveBackgroundStrategy 8 .other = .preserveStructure ∧
    deriveBackgroundStrategy 10 .other = .preserveDetail :=
  ⟨(c6_background_strategy_priority .landmark 7).1 rfl,
   (c6_background_strategy_priority .landscape 1).2.1 rfl,
   ((c6_background_strategy_priority .other 2).2.2.1 (by decide)
     (by decide)).1 (by decide),
   ((c6_background_strategy_priority .other 5).2.2.1 (by decide)
     (by decide)).2.1 (by decide) (by decide),
   ((c6_background_strategy_priority .other 8).2.2.1 (by decide)
     (by decide)).2.2.1 (by decide) (by decide),
   ((c6_background_strategy_priority .other 10).2.2.1 (by decide)
     (by decide)).2.2.2 (by decide)⟩

/-- C9: `getInferenceConfig` is a pure lookup whose inference steps are
monotonically (indeed strictly) increasing along the order
toddler < child < tween < adult, from 20 to 35, and whose guidance scale
is monotonically non-increasing along the same order, from 8.0 to 7.0. -/
theorem c9_inference_config_monotone (l1 l2 : ComplexityLevel)
    (h : l1.idx ≤ l2.idx) :
    (getInferenceConfig l1).numInferenceSteps ≤
      (getInferenceConfig l2).numInferenceSteps ∧
    (getInferenceConfig l2).guidanceScale ≤
      (getInferenceConfig l1).guidanceScale ∧
    (l1.idx < l2.idx →
      (getInferenceConfig l1).numInferenceSteps <
        (getInferenceConfig l2).numInferenceSteps) ∧
    (getInferenceConfig .toddler).numInferenceSteps = 20 ∧
    (getInferenceConfig .adult).numInferenceSteps = 35 ∧
    (getInferenceConfig .toddler).guidanceScale = 8 ∧
    (getInferenceConfig .adult).guidanceScale = 7 := by
  cases l1 <;> cases l2 <;>
    first
      | exact absurd h (by decide)
      | exact ⟨by decide, by norm_num [getInferenceConfig], by decide,
          rfl, rfl, by norm_num [getInferenceConfig],
          by norm_num [getInferenceConfig]⟩

/-- Witness for C9 at the extreme pair (toddler, adult). -/
theorem c9_inference_config_monotone_witness :
    ComplexityLevel.toddler.idx ≤ ComplexityLevel.adult.idx ∧
    ((getInferenceConfig .toddler).numInferenceSteps ≤
        (getInferenceConfig .adult).numInferenceSteps ∧
      (getInferenceConfig .adult).guidanceScale ≤
        (getInferenceConfig .toddler).guidanceScale ∧
      (ComplexityLevel.toddler.idx < ComplexityLevel.adult.idx →
        (getInferenceConfig .toddler).numInferenceSteps <
          (getInferenceConfig .adult).numInferenceSteps) ∧
      (getInferenceConfig .toddler).numInferenceSteps = 20 ∧
      (getInferenceConfig .adult).numInferenceSteps = 35 ∧
      (getInferenceConfig .toddler).guidanceScale = 8 ∧
      (getInferenceConfig .adult).guidanceScale = 7) :=
  ⟨by decide, c9_inference_config_monotone .toddler .adult (by decide)⟩

/-- C4 counterexample: the model slug strips only the literal `fal-ai/`
namespace, so the claimed example
`buildOutputFileName("child", "direct-transform", "registry/model-name/edit")
= "child--direct-transform--model-name.png"` is false — the `registry/`
namespace survives (with `/` sanitized to `-`). -/
theorem c4_output_file_name_counterexample :
    buildOutputFileName "child" "direct-transform"
        "registry/model-name/edit" =
      "child--direct-transform--registry-model-name.png" ∧
    buildOutputFileName "child" "direct-transform"
        "registry/model-name/edit" ≠
      "child--direct-transform--model-name.png" := by
  constructor
  · rfl
  · decide

/-- C4 amended: `buildOutputFileName` returns
`"{complexity}--{variant}--{slug}.png"` where the slug strips the literal
`fal-ai/` registry-namespace prefix and an `/edit` suffix and replaces
every character outside `[a-z0-9-]` with `-`; in particular
`buildOutputFileName("child", "direct-transform", "fal-ai/model-name/edit")
= "child--direct-transform--model-name.png"`. -/
theorem c4_output_file_name_amended (complexity variant model : String) :
    buildOutputFileName complexity variant model =
      complexity ++ "--" ++ variant ++ "--" ++ modelSlugOf model ++
        ".png" ∧
    modelSlugOf "fal-ai/model-name/edit" = "model-name" ∧
    buildOutputFileName "child" "direct-transform"
        "fal-ai/model-name/edit" =
      "child--direct-transform--model-name.png" ∧
    buildOutputFileName "child" "direct-transform"
        "fal-ai/gpt-image-1.5/edit" =
      "child--direct-transform--gpt-image-1-5.png" :=
  ⟨rfl, rfl, rfl, rfl⟩

/-- The `elements` field of the normalizer output, exposed for proofs. -/
theorem analysisResult_elements (analysis : ImageAnalysis) :
    (imageAnalysisToAnalysisResult analysis).elements =
      match subjectElementsOf analysis ++ backgroundElementsOf analysis with
      | [] =>
        [{ label := "scene", importance := 1, category := .subject,
           description := analysis.background.description }]
      | es => es := rfl

/-- The `faceRegions` field of the normalizer output, exposed for proofs. -/
theorem analysisResult_faceRegions (analysis : ImageAnalysis) :
    (imageAnalysisToAnalysisResult analysis).faceRegions =
      (analysis.subjects.filter (faceSubjectFilter analysis.photoType)).map
        subjectToFaceRegion := rfl

/-- C1: `imageAnalysisToAnalysisResult` is total (a Lean function) and its
output always has at least one element; when both `subjects` and
`background.keyElements` are empty it is exactly the fallback element
`{label: "scene", importance: 1, category: subject, description:
background.description}`. -/
theorem c1_normalize_nonempty_elements (analysis : ImageAnalysis) :
    1 ≤ (imageAnalysisToAnalysisResult analysis).elements.length ∧
    (analysis.subjects = [] → analysis.background.keyElements = [] →
      (imageAnalysisToAnalysisResult analysis).elements =
        [{ label := "scene", importance := 1, category := .subject,
           description := analysis.background.description }]) := by
  constructor
  · rw [analysisResult_elements]
    rcases h : subjectElementsOf analysis ++ backgroundElementsOf analysis
      with _ | ⟨a, t⟩ <;> simp
  · intro hs hk
    have h1 : subjectElementsOf analysis = [] := by
      simp [subjectElementsOf, hs]
    have h2 : backgroundElementsOf analysis = [] := by
      simp [backgroundElementsOf, hk]
    rw [analysisResult_elements, h1, h2]
    rfl

/-- Witness for C1 at a concrete degenerate analysis. -/
theorem c1_normalize_nonempty_elements_witness :
    emptyAnalysis.subjects = [] ∧
    emptyAnalysis.background.keyElements = [] ∧
    (imageAnalysisToAnalysisResult emptyAnalysis).elements =
      [{ label := "scene", importance := 1, category := .subject,
         description := emptyAnalysis.background.description }] :=
  ⟨rfl, rfl, (c1_normalize_nonempty_elements emptyAnalysis).2 rfl rfl⟩

/-- C10: every face region produced by the normalizer has a non-empty
feature list, the face-region list is the image of a sublist of the
subjects (so it preserves their relative order), and it is never longer
than the subject list. -/
theorem c10_face_region_invariants (analysis : ImageAnalysis) :
    (∀ fr ∈ (imageAnalysisToAnalysisResult analysis).faceRegions,
      fr.distinguishingFeatures ≠ []) ∧
    (imageAnalysisToAnalysisResult analysis).faceRegions.length ≤
      analysis.subjects.length ∧
    (∃ l, List.Sublist l analysis.subjects ∧
      (imageAnalysisToAnalysisResult analysis).faceRegions =
        l.map subjectToFaceRegion) := by
  refine ⟨?_, ?_, ?_⟩
  · intro fr hfr
    rw [analysisResult_faceRegions] at hfr
    rcases List.mem_map.mp hfr with ⟨s, hs, rfl⟩
    have hp := List.of_mem_filter hs
    have h0 : 0 < s.distinctiveFeatures.length := by
      have := ((Bool.and_eq_true _ _).mp hp).1
      simpa using this
    simpa [subjectToFaceRegion] using List.ne_nil_of_length_pos h0
  · rw [analysisResult_faceRegions, List.length_map]
    exact List.length_filter_le _ _
  · exact ⟨_, List.filter_sublist _, analysisResult_faceRegions analysis⟩

/-- Evaluation of `bboxToPosition` at `subject0`: the corner (0.5, 0.1)
falls in the top band only. -/
theorem bboxToPosition_subject0 :
    bboxToPosition subject0.boundingBox = "top" := by
  have hx1 : ¬(subject0.boundingBox.x < 0.33) := by norm_num [subject0]
  have hx2 : ¬(subject0.boundingBox.x > 0.66) := by norm_num [subject0]
  have hy1 : subject0.boundingBox.y < 0.33 := by norm_num [subject0]
  simp [bboxToPosition, hx1, hx2, hy1]

/-- Evaluation of the normalizer's face regions at `portraitAnalysis`. -/
theorem portraitAnalysis_faceRegions :
    (imageAnalysisToAnalysisResult portraitAnalysis).faceRegions =
      [{ description := "smiling man", position := "top",
         distinguishingFeatures := ["glasses"] }] := by
  rw [analysisResult_faceRegions]
  have h1 : List.filter (faceSubjectFilter portraitAnalysis.photoType)
      portraitAnalysis.subjects = [subject0] := rfl
  rw [h1, List.map_singleton,
    show subjectToFaceRegion subject0 =
      { description := "smiling man",
        position := bboxToPosition subject0.boundingBox,
        distinguishingFeatures := ["glasses"] } from rfl,
    bboxToPosition_subject0]

/-- Witness for C10 at `portraitAnalysis`: its single face region has a
non-empty feature list. -/
theorem c10_face_region_invariants_witness :
    (⟨"smiling man", "top", ["glasses"]⟩ : FaceRegion) ∈
      (imageAnalysisToAnalysisResult portraitAnalysis).faceRegions ∧
    (⟨"smiling man", "top", ["glasses"]⟩ : FaceRegion).distinguishingFeatures
      ≠ [] := by
  have hmem : (⟨"smiling man", "top", ["glasses"]⟩ : FaceRegion) ∈
      (imageAnalysisToAnalysisResult portraitAnalysis).faceRegions := by
    rw [portraitAnalysis_faceRegions]
    exact List.mem_singleton_self _
  exact ⟨hmem, (c10_face_region_invariants portraitAnalysis).1 _ hmem⟩

/-- C5 counterexample: for `subject0` (corner (0.5, 0.1), center
(0.7, 0.5)) the normalizer emits position `"top"`, which neither matches
the center-derived bucket (`"right"`) nor belongs to the 7 declared
position strings. -/
theorem c5_position_counterexample :
    (imageAnalysisToAnalysisResult portraitAnalysis).faceRegions.map
        (·.position) = ["top"] ∧
    "top" ∉ declaredPositions ∧
    bboxCenterPositionSpec subject0.boundingBox = "right" ∧
    "top" ≠ "right" := by
  refine ⟨by rw [portraitAnalysis_faceRegions]; rfl, by decide, ?_,
    by decide⟩
  have hx1 : ¬(subject0.boundingBox.x + subject0.boundingBox.width / 2 <
      0.33) := by norm_num [subject0]
  have hx2 : subject0.boundingBox.x + subject0.boundingBox.width / 2 >
      0.66 := by norm_num [subject0]
  have hy1 : ¬(subject0.boundingBox.y + subject0.boundingBox.height / 2 <
      0.33) := by norm_num [subject0]
  have hy2 : ¬(subject0.boundingBox.y + subject0.boundingBox.height / 2 >
      0.66) := by norm_num [subject0]
  simp [bboxCenterPositionSpec, hx1, hx2, hy1, hy2]

/-- C5 amended: the position is derived from the bounding box top-left
corner (x, y) — not the center — with the claimed buckets, and every face
region's position is one of 9 strings: the 7 declared ones plus the bare
`"top"` and `"bottom"` buckets. -/
theorem c5_position_amended (bbox : BoundingBox) (analysis : ImageAnalysis) :
    bboxToPosition bbox = bboxCornerPositionSpec bbox ∧
    ∀ fr ∈ (imageAnalysisToAnalysisResult analysis).faceRegions,
      fr.position ∈ producedPositions := by
  have hmem : ∀ b : BoundingBox, bboxToPosition b ∈ producedPositions := by
    intro b
    by_cases hx1 : b.x < 0.33 <;> by_cases hx2 : b.x > 0.66 <;>
      by_cases hy1 : b.y < 0.33 <;> by_cases hy2 : b.y > 0.66 <;>
      simp [bboxToPosition, producedPositions, hx1, hx2, hy1, hy2]
  constructor
  · by_cases hx1 : bbox.x < 0.33 <;> by_cases hx2 : bbox.x > 0.66 <;>
      by_cases hy1 : bbox.y < 0.33 <;> by_cases hy2 : bbox.y > 0.66 <;>
      simp [bboxToPosition, bboxCornerPositionSpec, hx1, hx2, hy1, hy2]
  · intro fr hfr
    rw [analysisResult_faceRegions] at hfr
    rcases List.mem_map.mp hfr with ⟨s, _, rfl⟩
    simpa [subjectToFaceRegion] using hmem s.boundingBox

/-- Witness for C5's amended statement at `subject0`/`portraitAnalysis`. -/
theorem c5_position_amended_witness :
    (⟨"smiling man", "top", ["glasses"]⟩ : FaceRegion) ∈
      (imageAnalysisToAnalysisResult portraitAnalysis).faceRegions ∧
    bboxToPosition subject0.boundingBox =
      bboxCornerPositionSpec subject0.boundingBox ∧
    (⟨"smiling man", "top", ["glasses"]⟩ : FaceRegion).position ∈
      producedPositions := by
  have h := c5_position_amended subject0.boundingBox portraitAnalysis
  have hmem : (⟨"smiling man", "top", ["glasses"]⟩ : FaceRegion) ∈
      (imageAnalysisToAnalysisResult portraitAnalysis).faceRegions := by
    rw [portraitAnalysis_faceRegions]
    exact List.mem_singleton_self _
  exact ⟨hmem, h.1, h.2 _ hmem⟩

/-- C8: for every variant, complexity level and optional analysis,
`buildEditPrompt` is the variant's positive prompt (the one
`buildGenerationPrompt` returns) followed by the literal suffix
`"MUST NOT include: {negativePrompt}."`, where the negative prompt is
exactly the fixed 20-term comma-joined constant; in particular the output
always ends with that literal suffix. -/
theorem c8_edit_prompt_negative_suffix (variant : PromptVariant)
    (complexityLevel : ComplexityLevel)
    (analysisResult : Option AnalysisResult) :
    buildEditPrompt variant complexityLevel analysisResult =
      (buildGenerationPrompt variant complexityLevel analysisResult).prompt
        ++ " MUST NOT include: " ++ NEGATIVE_PROMPT ++ "." ∧
    (∃ p, buildEditPrompt variant complexityLevel analysisResult =
      p ++ " MUST NOT include: " ++ NEGATIVE_PROMPT ++ ".") ∧
    NEGATIVE_PROMPT =
      "color, shading, gradient, gray, grey, shadow, photograph, photorealistic, 3d render, watermark, text, signature, blurry, low quality, filled areas, solid black regions, halftone, crosshatch, noise, grain" ∧
    NEGATIVE_PROMPT_TERMS.length = 20 ∧
    NEGATIVE_PROMPT = joinWith ", " NEGATIVE_PROMPT_TERMS := by
  set_option maxRecDepth 4000 in
  exact ⟨rfl,
    ⟨variantBuilder variant complexityLevel analysisResult, rfl⟩,
    rfl, rfl, rfl⟩

/-- Every `getD` read is either the fallback or a member of the list. -/
theorem list_getD_default_or_mem {α : Type} (l : List α) (i : ℕ) (d : α) :
    l.getD i d = d ∨ l.getD i d ∈ l := by
  induction l generalizing i with
  | nil => left; simp
  | cons a t ih =>
    cases i with
    | zero => right; simp
    | succ n =>
      rcases ih n with h | h
      · left; simpa using h
      · right
        rw [List.getD_cons_succ]
        exact List.mem_cons_of_mem a h

/-- A clamped raster read satisfies any predicate that holds of every
pixel and of the fallback value 0. -/
theorem rasterGet_binary (g : Raster)
    (hg : ∀ row ∈ g, ∀ v ∈ row, v = 0 ∨ v = 255) (i j : ℕ) :
    rasterGet g i j = 0 ∨ rasterGet g i j = 255 := by
  unfold rasterGet
  rcases list_getD_default_or_mem g i ([] : List ℕ) with h | h
  · rw [h]; left; simp
  · rcases list_getD_default_or_mem (g.getD i []) j 0 with h2 | h2
    · left; exact h2
    · exact hg _ h _ h2

/-- C7: the post-processing pipeline binarizes — every pixel of the
pre-encode buffer is pure black (0) or pure white (255) for every input
image and every option set; and absent denoising and resizing, the buffer
is exactly the luminance thresholding of the input (below `threshold` →
black, otherwise white). -/
theorem c7_binarization (img : List (List (ℕ × ℕ × ℕ)))
    (options : PostProcessOptions) :
    (∀ row ∈ postProcessColoringPage img options, ∀ v ∈ row,
      v = 0 ∨ v = 255) ∧
    (options.denoise = false → options.outputWidth = none →
      options.outputHeight = none →
      postProcessColoringPage img options =
        img.map (List.map fun p =>
          if grayscalePixel p < options.threshold then 0 else 255)) := by
  have hbin : ∀ (g : Raster) (t : ℕ),
      ∀ row ∈ g.map (List.map (thresholdPixel t)), ∀ v ∈ row,
        v = 0 ∨ v = 255 := by
    intro g t row hrow v hv
    rcases List.mem_map.mp hrow with ⟨r, _, rfl⟩
    rcases List.mem_map.mp hv with ⟨x, _, rfl⟩
    unfold thresholdPixel
    split_ifs <;> simp
  have hres : ∀ (g : Raster) (hh ww : ℕ),
      (∀ row ∈ g, ∀ v ∈ row, v = 0 ∨ v = 255) →
      ∀ row ∈ resampleRaster hh ww g, ∀ v ∈ row, v = 0 ∨ v = 255 := by
    intro g hh ww hg row hrow v hv
    unfold resampleRaster at hrow
    rcases List.mem_map.mp hrow with ⟨i, _, rfl⟩
    rcases List.mem_map.mp hv with ⟨j, _, rfl⟩
    exact rasterGet_binary g hg _ _
  constructor
  · unfold postProcessColoringPage
    rcases options.outputWidth with _ | w <;>
      rcases options.outputHeight with _ | h <;>
      dsimp only <;>
      first
        | exact hbin _ _
        | exact hres _ _ _ (hbin _ _)
  · intro hd hw hh
    unfold postProcessColoringPage
    rw [hd, hw, hh]
    dsimp only [Bool.false_eq_true, if_false]
    simp [List.map_map, Function.comp, thresholdPixel]

/-- Witness for C7: a concrete run under default options, and the exact
thresholded buffer for a denoise-free run. -/
theorem c7_binarization_witness :
    ([0, 0] ∈ postProcessColoringPage
        [[(10, 20, 30), (200, 200, 200)], [(0, 0, 0), (255, 255, 255)]]
        {} ∧
      (0 : ℕ) ∈ ([0, 0] : List ℕ)) ∧
    ((0 : ℕ) = 0 ∨ (0 : ℕ) = 255) ∧
    postProcessColoringPage [[(10, 20, 30), (200, 200, 200)]]
        { denoise := false } = [[0, 255]] := by
  have h := c7_binarization
    [[(10, 20, 30), (200, 200, 200)], [(0, 0, 0), (255, 255, 255)]] {}
  have h2 := (c7_binarization [[(10, 20, 30), (200, 200, 200)]]
    { denoise := false }).2 rfl rfl rfl
  exact ⟨⟨by decide, by decide⟩, h.1 [0, 0] (by decide) 0 (by decide),
    h2.trans (by decide)⟩

/-- Characterization of the `handleRunAll` accumulation loop: it appends
one result per triple (in loop order) and one error message per failed
triple, never discarding earlier accumulation. -/
theorem runAll_foldl_eq
    (iterate : GenerationModel → String → String →
      ActionResult IterationData)
    (ts : List (GenerationModel × String × String)) :
    ∀ acc : List BatchResult × List String,
      ts.foldl
        (fun acc t =>
          let entry := iterationEntry iterate t.1 t.2.1 t.2.2
          (acc.1 ++ [entry.1],
           match entry.2 with
           | some e => acc.2 ++ [e]
           | none => acc.2)) acc =
      (acc.1 ++
        ts.map (fun t => (iterationEntry iterate t.1 t.2.1 t.2.2).1),
       acc.2 ++
        ts.filterMap (fun t => (iterationEntry iterate t.1 t.2.1 t.2.2).2))
      := by
  induction ts with
  | nil => intro acc; simp
  | cons t ts ih =>
    intro acc
    rw [List.foldl_cons, ih]
    rcases h : (iterationEntry iterate t.1 t.2.1 t.2.2).2 with _ | e <;>
      simp [h, List.filterMap_cons]

/-- On a successful analysis, `handleRunAll` reaches the done phase with
exactly the per-triple records in loop order. -/
theorem handleRunAll_success_eq (models : List GenerationModel)
    (complexities variants : List String) (d : InitBatchData)
    (iterate : GenerationModel → String → String →
      ActionResult IterationData) :
    handleRunAll models complexities variants (.success d) iterate =
      RunOutcome.done
        ((iterationTriples models complexities variants).map
          (fun t => (iterationEntry iterate t.1 t.2.1 t.2.2).1))
        ((iterationTriples models complexities variants).filterMap
          (fun t => (iterationEntry iterate t.1 t.2.1 t.2.2).2)) := by
  unfold handleRunAll
  rw [runAll_foldl_eq]
  simp

/-- Length of the inner complexity-by-variant loop. -/
theorem innerTriples_length (m : GenerationModel) (cs vs : List String) :
    (cs.flatMap fun c => vs.map fun v => (m, c, v)).length =
      cs.length * vs.length := by
  induction cs with
  | nil => simp
  | cons c cs ih =>
    rw [List.flatMap_cons, List.length_append, List.length_map, ih]
    rw [List.length_cons, Nat.succ_mul]
    omega

/-- The loop visits exactly |models| × |complexities| × |variants|
triples. -/
theorem iterationTriples_length (models : List GenerationModel)
    (cs vs : List String) :
    (iterationTriples models cs vs).length =
      models.length * cs.length * vs.length := by
  unfold iterationTriples
  induction models with
  | nil => simp
  | cons m ms ih =>
    rw [List.flatMap_cons, List.length_append, ih, innerTriples_length,
      List.length_cons]
    ring

/-- C2: an analysis failure ends the run in the error phase with no
iteration attempted (the outcome does not depend on the iteration action),
while after a successful analysis every iteration of the full matrix
produces exactly one result — a failed iteration is recorded with its error
message and zero/empty generation data and does not abort the rest. -/
theorem c2_batch_failure_isolation (models : List GenerationModel)
    (complexities variants : List String)
    (iterate : GenerationModel → String → String →
      ActionResult IterationData)
    (e : String) (d : InitBatchData) :
    handleRunAll models complexities variants (.failure e) iterate =
      RunOutcome.error e ∧
    (∃ results errors,
      handleRunAll models complexities variants (.success d) iterate =
        RunOutcome.done results errors ∧
      results.length =
        models.length * complexities.length * variants.length ∧
      results = (iterationTriples models complexities variants).map
        (fun t => (iterationEntry iterate t.1 t.2.1 t.2.2).1)) ∧
    (∀ model complexity variant err,
      iterate model complexity variant = .failure err →
      (iterationEntry iterate model complexity variant).1.error = some err ∧
      (iterationEntry iterate model complexity variant).1.generation =
        { imageUrl := "", width := none, height := none, model := model.id,
          promptUsed := "", negativePromptUsed := none, seed := none,
          description := none } ∧
      (iterationEntry iterate model complexity variant).1.generationMs = 0 ∧
      (iterationEntry iterate model complexity variant).1.postProcessMs = 0)
      ∧
    (∀ model complexity variant data,
      iterate model complexity variant = .success data →
      (iterationEntry iterate model complexity variant).1.error = none) := by
  refine ⟨rfl, ⟨_, _, handleRunAll_success_eq _ _ _ _ _, ?_, rfl⟩, ?_, ?_⟩
  · rw [List.length_map, iterationTriples_length]
  · intro m c v err h
    simp [iterationEntry, h]
  · intro m c v data h
    simp [iterationEntry, h]

/-- Witness for C2 with a concrete one-model batch whose `adult`
iterations fail. -/
theorem c2_batch_failure_isolation_witness :
    iterateOneFailure model0 "adult" "direct-transform" =
      ActionResult.failure "boom" ∧
    (iterationEntry iterateOneFailure model0 "adult"
      "direct-transform").1.error = some "boom" ∧
    (iterationEntry iterateOneFailure model0 "adult"
      "direct-transform").1.generation.imageUrl = "" ∧
    handleRunAll [model0] BATCH_COMPLEXITY_LEVELS BATCH_VARIANTS
      (.failure "no analysis") iterateOneFailure =
      RunOutcome.error "no analysis" := by
  have h := c2_batch_failure_isolation [model0] BATCH_COMPLEXITY_LEVELS
    BATCH_VARIANTS iterateOneFailure "no analysis" initData0
  have hfail : iterateOneFailure model0 "adult" "direct-transform" =
      ActionResult.failure "boom" := rfl
  have h3 := h.2.2.1 model0 "adult" "direct-transform" "boom" hfail
  exact ⟨hfail, h3.1, by rw [h3.2.1], h.1⟩

/-- Splitting a list by a boolean predicate partitions its length. -/
theorem length_filter_bool_split {α : Type} (p : α → Bool) (l : List α) :
    (l.filter p).length + (l.filter fun a => !p a).length = l.length := by
  induction l with
  | nil => simp
  | cons a t ih =>
    cases h : p a <;> simp [List.filter_cons, h] <;> omega

/-- C3: after a full batch run over the real configuration matrix, the
saved record counts completed iterations as the results without an error
and failed iterations as the results with one, the two sum to
`totalIterations` = |models| × |complexities| × |variants|, and every
iteration contributed exactly one entry to the results list. (The
hypothesis rules out empty error messages, which JavaScript truthiness
would misclassify.) -/
theorem c3_completion_accounting
    (iterate : GenerationModel → String → String →
      ActionResult IterationData)
    (d : InitBatchData)
    (hne : ∀ m c v err, iterate m c v = .failure err → err ≠ "")
    (batchId timestamp inputFileName : String)
    (ratings : String → Option (List (String × ℕ))) :
    ∃ results errors,
      handleRunAll GENERATION_MODELS BATCH_COMPLEXITY_LEVELS BATCH_VARIANTS
        (.success d) iterate = RunOutcome.done results errors ∧
      (handleSave batchId timestamp inputFileName results
        ratings).completedIterations =
          (results.filter fun r => r.error.isNone).length ∧
      (handleSave batchId timestamp inputFileName results
        ratings).failedIterations =
          (results.filter fun r => r.error.isSome).length ∧
      (handleSave batchId timestamp inputFileName results
          ratings).completedIterations +
        (handleSave batchId timestamp inputFileName results
          ratings).failedIterations =
        (handleSave batchId timestamp inputFileName results
          ratings).totalIterations ∧
      (handleSave batchId timestamp inputFileName results
        ratings).totalIterations =
          GENERATION_MODELS.length * BATCH_COMPLEXITY_LEVELS.length *
            BATCH_VARIANTS.length ∧
      results.length =
        (handleSave batchId timestamp inputFileName results
          ratings).totalIterations ∧
      (handleSave batchId timestamp inputFileName results
        ratings).results.length =
        (handleSave batchId timestamp inputFileName results
          ratings).totalIterations := by
  refine ⟨_, _, handleRunAll_success_eq _ _ _ _ _, ?_⟩
  set results := (iterationTriples GENERATION_MODELS
      BATCH_COMPLEXITY_LEVELS BATCH_VARIANTS).map
    (fun t => (iterationEntry iterate t.1 t.2.1 t.2.2).1) with hresults
  have hN : ∀ r ∈ results, (!jsTruthy r.error) = r.error.isNone := by
    intro r hr
    rcases List.mem_map.mp hr with ⟨t, _, rfl⟩
    rcases h : iterate t.1 t.2.1 t.2.2 with data | err
    · simp [iterationEntry, h, jsTruthy]
    · have hne' := hne _ _ _ _ h
      simp [iterationEntry, h, jsTruthy, hne']
  have hS : ∀ r ∈ results, jsTruthy r.error = r.error.isSome := by
    intro r hr
    rcases List.mem_map.mp hr with ⟨t, _, rfl⟩
    rcases h : iterate t.1 t.2.1 t.2.2 with data | err
    · simp [iterationEntry, h, jsTruthy]
    · have hne' := hne _ _ _ _ h
      simp [iterationEntry, h, jsTruthy, hne']
  have hlen : results.length = TOTAL_ITERATIONS := by
    rw [hresults, List.length_map, iterationTriples_length]
    decide
  have hcompleted :
      (handleSave batchId timestamp inputFileName results
        ratings).completedIterations =
        (results.filter fun r => r.error.isNone).length := by
    show (results.filter fun r => !jsTruthy r.error).length = _
    rw [List.filter_congr hN]
  have hfailed :
      (handleSave batchId timestamp inputFileName results
        ratings).failedIterations =
        (results.filter fun r => r.error.isSome).length := by
    show (results.filter fun r => jsTruthy r.error).length = _
    rw [List.filter_congr hS]
  refine ⟨hcompleted, hfailed, ?_, ?_, hlen, ?_⟩
  · show (results.filter fun r => !jsTruthy r.error).length +
      (results.filter fun r => jsTruthy r.error).length = TOTAL_ITERATIONS
    have hsplit := length_filter_bool_split
      (fun r => jsTruthy r.error) results
    omega
  · show TOTAL_ITERATIONS = GENERATION_MODELS.length *
      BATCH_COMPLEXITY_LEVELS.length * BATCH_VARIANTS.length
    decide
  · show (results.map _).length = TOTAL_ITERATIONS
    rw [List.length_map]
    exact hlen

/-- Witness for C3 with a concrete batch where the `adult` iterations all
fail with message `"boom"`. -/
theorem c3_completion_accounting_witness :
    (∀ m c v err, iterateOneFailure m c v = .failure err → err ≠ "") ∧
    (∃ results errors,
      handleRunAll GENERATION_MODELS BATCH_COMPLEXITY_LEVELS BATCH_VARIANTS
        (.success initData0) iterateOneFailure =
        RunOutcome.done results errors ∧
      (handleSave "b1-123" "ts" "input.jpg" results
        (fun _ => none)).completedIterations =
          (results.filter fun r => r.error.isNone).length ∧
      (handleSave "b1-123" "ts" "input.jpg" results
        (fun _ => none)).failedIterations =
          (results.filter fun r => r.error.isSome).length ∧
      (handleSave "b1-123" "ts" "input.jpg" results
          (fun _ => none)).completedIterations +
        (handleSave "b1-123" "ts" "input.jpg" results
          (fun _ => none)).failedIterations =
        (handleSave "b1-123" "ts" "input.jpg" results
          (fun _ => none)).totalIterations ∧
      (handleSave "b1-123" "ts" "input.jpg" results
        (fun _ => none)).totalIterations =
          GENERATION_MODELS.length * BATCH_COMPLEXITY_LEVELS.length *
            BATCH_VARIANTS.length ∧
      results.length =
        (handleSave "b1-123" "ts" "input.jpg" results
          (fun _ => none)).totalIterations ∧
      (handleSave "b1-123" "ts" "input.jpg" results
        (fun _ => none)).results.length =
        (handleSave "b1-123" "ts" "input.jpg" results
          (fun _ => none)).totalIterations) := by
  have hne : ∀ m c v err, iterateOneFailure m c v = .failure err →
      err ≠ "" := by
    intro m c v err h
    unfold iterateOneFailure at h
    split at h
    · cases h; decide
    · cases h
  exact ⟨hne, c3_completion_accounting iterateOneFailure initData0 hne
    "b1-123" "ts" "input.jpg" (fun _ => none)⟩

end PhotoColor
